import Mathlib

/-!
Verification development for the Volume-Hand-Controller application
(src/main.py).  The per-frame pipeline, the run loop, the startup and the
cleanup sequence of `VolumeControlApp` are embedded shallowly as
trace-producing functions.  External collaborators (camera, detector,
display, OS audio endpoint) appear as inputs (a script of per-frame
events) and as observable effects collected in a trace.
-/

namespace VolumeHandController

/-- Python runtime errors that the embedded code can raise. -/
inductive PyErr where
  | zeroDivisionError
  | indexError
  deriving DecidableEq

/-- One landmark triple (index, x, y) as returned by get_positions;
pixel coordinates are integers. -/
abbrev Landmark : Type := ℤ × ℤ × ℤ

/-- Observable effects emitted by the application, generic in the type `D`
of distance values (the argument that math.hypot returns and that is fed
to the volume operations). -/
inductive Eff (D : Type) where
  | drawHands
  | drawCircle (center : ℤ × ℤ)
  | drawLine (p q : ℤ × ℤ)
  | getScaledDb (dist : D)
  | setVolume (dist : D)
  | reportError (msg : String)
  | showFPS (fps : ℤ)
  | showVolume (db : ℚ)
  | imshow
  | printInterrupted
  | release
  | destroyAllWindows
  | resetDefaultVolume
  deriving DecidableEq

/-- The mutable fields of VolumeControlApp that the run loop touches:
the stored reset_volume flag, self.db and self.previous_time. -/
structure AppState where
  reset_volume : Bool
  db : ℚ
  previous_time : ℚ
  deriving DecidableEq

/-- Events of one loop iteration: whether a KeyboardInterrupt is delivered
at the top of the iteration, the result of cap.read(), the landmarks that
get_positions returns for the frame, the value time.time() returns at
line 71, and whether waitKey reports the letter q. -/
structure FrameInput where
  interrupt : Bool
  success : Bool
  lms : List Landmark
  time : ℚ
  quitKey : Bool

/-- How one pass of the while loop body ends. -/
inductive ExitKind where
  | quitKey
  | interrupted
  | raised (e : PyErr)
  | scriptEnd
  deriving DecidableEq

/-- How VolumeControlApp.run ends after the try/except/finally. -/
inductive Outcome where
  | normal
  | raised (e : PyErr)
  | scriptEnd
  deriving DecidableEq

/-- Python int() on a rational: truncation toward zero. -/
def pyInt (q : ℚ) : ℤ := if q < 0 then -(⌊-q⌋) else ⌊q⌋

/-- Lines 71 and 72 of main.py: fps = int(1 / (current_time -
self.previous_time)).  A zero elapsed time raises ZeroDivisionError,
exactly as Python float division by zero does; there is no guard in the
source. -/
def computeFPS (current previous : ℚ) : Except PyErr ℤ :=
  if current - previous = 0 then .error .zeroDivisionError
  else .ok (pyInt (1 / (current - previous)))

/-- VolumeControlApp.process_frame (main.py lines 32 to 53), generic in
the hypot function applied to the coordinate differences.  The source
draws the hand overlay, reads the landmark list, and when it is nonempty
takes elements 1 and 2 of entries 4 and 8 (the x and y of the thumb tip
and of the index fingertip), computes length = hypot(x2 - x1, y2 - y1),
draws two circles and a line, binds the local variable db to
get_scaled_db(length) (the binding is local: self.db is NOT assigned),
and calls set_volume(length).  The state is returned untouched on every
path.  A nonempty landmark list lacking entry 4 or 8 raises IndexError. -/
def processFrame {D : Type} (hypot : ℤ → ℤ → D) (lms : List Landmark)
    (s : AppState) : List (Eff D) × Except PyErr AppState :=
  if lms.isEmpty then ([.drawHands], .ok s)
  else
    match lms.get? 4, lms.get? 8 with
    | some l4, some l8 =>
      let x1 := l4.2.1
      let y1 := l4.2.2
      let x2 := l8.2.1
      let y2 := l8.2.2
      let length := hypot (x2 - x1) (y2 - y1)
      ([.drawHands, .drawCircle (x1, y1), .drawCircle (x2, y2),
        .drawLine (x1, y1) (x2, y2), .getScaledDb length,
        .setVolume length], .ok s)
    | _, _ => ([.drawHands], .error .indexError)

/-- Modelled from the spec: utils.error lives in utils.py, which is not
part of the sources given; per the spec a single read() failure is
non-fatal by design, reported, and the loop continues, so the call is
modelled as emitting an error report and returning. -/
def utilsError {D : Type} (msg : String) : List (Eff D) :=
  [.reportError msg]

/-- The while True loop of VolumeControlApp.run (main.py lines 63 to 83)
driven by a finite script of frame inputs.  Each iteration: cap.read();
if it fails, utils.error reports (note: the source has no continue
statement, so the body then falls through to process_frame); then
process_frame, the FPS computation, the update of self.previous_time,
display_info (FPS first, then self.db), imshow, and the waitKey check
for the letter q.  A KeyboardInterrupt is modelled as delivered at the
top of an iteration.  An exhausted script means the loop is still
running (ExitKind.scriptEnd). -/
def runLoop {D : Type} (hypot : ℤ → ℤ → D) :
    List FrameInput → AppState → List (Eff D) × AppState × ExitKind
  | [], s => ([], s, .scriptEnd)
  | f :: rest, s =>
    if f.interrupt then ([], s, .interrupted)
    else
      let readEffs : List (Eff D) :=
        if f.success then [] else utilsError "Unable to process image"
      let p := processFrame hypot f.lms s
      match p.2 with
      | .error e => (readEffs ++ p.1, s, .raised e)
      | .ok s1 =>
        match computeFPS f.time s1.previous_time with
        | .error e => (readEffs ++ p.1, s1, .raised e)
        | .ok fps =>
          let s2 : AppState := { s1 with previous_time := f.time }
          let dEffs : List (Eff D) := [.showFPS fps, .showVolume s2.db, .imshow]
          if f.quitKey then (readEffs ++ p.1 ++ dEffs, s2, .quitKey)
          else
            let r := runLoop hypot rest s2
            (readEffs ++ p.1 ++ dEffs ++ r.1, r.2.1, r.2.2)

/-- VolumeControlApp.cleanup (main.py lines 90 to 94): cap.release(),
cv2.destroyAllWindows(), self.volume.reset_default_volume(), in that
order, with no condition on the reset_volume flag. -/
def cleanupEffs {D : Type} : List (Eff D) :=
  [.release, .destroyAllWindows, .resetDefaultVolume]

/-- VolumeControlApp.run (main.py lines 60 to 88): the loop inside
try, with except KeyboardInterrupt printing a message, and finally
running cleanup.  A PyErr escaping the loop body still runs cleanup
(finally) and then propagates out of run.  When the script is exhausted
the loop is still running, so no cleanup has happened yet. -/
def run {D : Type} (hypot : ℤ → ℤ → D) (script : List FrameInput)
    (s : AppState) : List (Eff D) × AppState × Outcome :=
  let r := runLoop hypot script s
  match r.2.2 with
  | .quitKey => (r.1 ++ cleanupEffs, r.2.1, .normal)
  | .interrupted => (r.1 ++ [.printInterrupted] ++ cleanupEffs, r.2.1, .normal)
  | .raised e => (r.1 ++ cleanupEffs, r.2.1, .raised e)
  | .scriptEnd => (r.1, r.2.1, .scriptEnd)

/-- Environment for VolumeControlApp.__init__: whether the camera opens,
whether the HandDetector and the VolumeChanger constructors succeed, the
baseline level the VolumeChanger reads from the audio endpoint at
construction, and the startup value of time.time(). -/
structure InitEnv where
  camOpened : Bool
  detectorOk : Bool
  volumeOk : Bool
  initial_db : ℚ
  t0 : ℚ

/-- Calls made to the OS audio endpoint. -/
inductive AudioEff where
  | readBaseline
  deriving DecidableEq

/-- VolumeControlApp.__init__ (main.py lines 14 to 30).  The camera is
opened first; if it is not opened, sys.exit is called with a message,
which terminates the process with status 1, before the HandDetector and
the VolumeChanger are constructed, so no audio-endpoint call has been
made.  Detector or volume construction failure likewise exits with
status 1.  On success the VolumeChanger has read the baseline from the
endpoint, self.db is set from get_initial_db (the stored baseline) and
self.previous_time from time.time(). -/
def appInit (reset_volume : Bool) (env : InitEnv) :
    List AudioEff × Except ℤ AppState :=
  if ¬ env.camOpened then ([], .error 1)
  else if ¬ env.detectorOk then ([], .error 1)
  else if ¬ env.volumeOk then ([], .error 1)
  else ([.readBaseline],
    .ok { reset_volume := reset_volume, db := env.initial_db,
          previous_time := env.t0 })

/-- The module entry point (main.py lines 119 to 122): main() is wrapped
in try with except Exception.  A SystemExit from __init__ is not an
Exception, so it propagates and the process keeps its nonzero status.  A
PyErr escaping run is an Exception: it is caught, a message is printed,
and the script falls off the end, terminating with status 0.  The result
is the exit status together with whether the error message was printed. -/
def programRun {D : Type} (hypot : ℤ → ℤ → D) (reset_volume : Bool)
    (env : InitEnv) (script : List FrameInput) : ℤ × Bool :=
  match (appInit reset_volume env).2 with
  | .error code => (code, false)
  | .ok s =>
    match (run hypot script s).2.2 with
    | .raised _ => (0, true)
    | _ => (0, false)

/-- Modelled from the spec: map_to_level lives in components.py, which is
not part of the sources given; per the spec it is clamped linear
interpolation from the distance range onto the level range. -/
def map_to_level (dlo dhi llo lhi d : ℚ) : ℚ :=
  if d ≤ dlo then llo
  else if dhi ≤ d then lhi
  else llo + (d - dlo) * (lhi - llo) / (dhi - dlo)

/-- Modelled from the spec: VolumeChanger.get_scaled_db lives in
components.py, which is not part of the sources given; per the spec it
is the pure distance-to-level computation via the DistanceMapper.  The
scenario bounds of the spec are used: distances 20 to 200 pixels map
onto levels 0 to 100. -/
def get_scaled_db (d : ℚ) : ℚ := map_to_level 20 200 0 100 d

/-- The idealization of math.hypot on integer pixel offsets: the real
Euclidean norm. -/
noncomputable def hypotR (a b : ℤ) : ℝ :=
  Real.sqrt ((a : ℝ) ^ 2 + (b : ℝ) ^ 2)

/-- A computable stand-in for math.hypot used to run the machine on
concrete inputs: the integer square root of the sum of squares, exact on
Pythagorean offsets. -/
def hypotQ (a b : ℤ) : ℚ := (Nat.sqrt (a * a + b * b).natAbs : ℚ)

/-- Is an effect a set_volume call? -/
def isSetVolume {D : Type} : Eff D → Bool
  | .setVolume _ => true
  | _ => false

/-- Is an effect a cap.release() call? -/
def isRelease {D : Type} : Eff D → Bool
  | .release => true
  | _ => false

/-- Is an effect a reset_default_volume() call? -/
def isReset {D : Type} : Eff D → Bool
  | .resetDefaultVolume => true
  | _ => false

/-- Is an effect an error report? -/
def isReport {D : Type} : Eff D → Bool
  | .reportError _ => true
  | _ => false

/-- The distance arguments handed to the volume operations
(get_scaled_db and set_volume), in order of occurrence. -/
def volumeOpArgs {D : Type} (t : List (Eff D)) : List D :=
  t.filterMap fun e =>
    match e with
    | .getScaledDb d => some d
    | .setVolume d => some d
    | _ => none

/-! ### Helper lemmas about process_frame -/

/-- process_frame never writes the application state: whatever it returns
on the ok path is the input state, and the emitted trace does not depend
on the state at all. -/
lemma processFrame_state {D : Type} (hypot : ℤ → ℤ → D) (lms : List Landmark)
    (s t : AppState) :
    processFrame hypot lms t =
      ((processFrame hypot lms s).1,
        (processFrame hypot lms s).2.map fun _ => t) := by
  unfold processFrame
  by_cases he : lms.isEmpty
  · simp [he, Except.map]
  · cases h4 : lms.get? 4 <;> cases h8 : lms.get? 8 <;>
      simp [he, h4, h8, Except.map]

/-- If process_frame returns ok, the returned state is the input state. -/
lemma processFrame_ok_eq {D : Type} {hypot : ℤ → ℤ → D} {lms : List Landmark}
    {s r : AppState} (h : (processFrame hypot lms s).2 = Except.ok r) :
    r = s := by
  revert h
  unfold processFrame
  by_cases he : lms.isEmpty
  · simp [he]
    intro h
    exact h.symm
  · cases h4 : lms.get? 4 <;> cases h8 : lms.get? 8 <;> simp [he, h4, h8] <;>
      intro h <;> exact h.symm

/-- Counting effects in the per-frame trace: any predicate that holds of
no frame-level effect counts zero occurrences in the trace that
process_frame emits. -/
lemma processFrame_countP_zero {D : Type} (hypot : ℤ → ℤ → D)
    (lms : List Landmark) (s : AppState) (p : Eff D → Bool)
    (hDraw : p .drawHands = false)
    (hCircle : ∀ c, p (.drawCircle c) = false)
    (hLine : ∀ a b, p (.drawLine a b) = false)
    (hGet : ∀ d, p (.getScaledDb d) = false)
    (hSet : ∀ d, p (.setVolume d) = false) :
    (processFrame hypot lms s).1.countP p = 0 := by
  unfold processFrame
  by_cases he : lms.isEmpty
  · simp [he, List.countP_cons, hDraw]
  · cases h4 : lms.get? 4 <;> cases h8 : lms.get? 8 <;>
      simp [he, h4, h8, List.countP_cons, hDraw, hCircle, hLine, hGet, hSet]

/-! ### Helper lemmas about the run loop -/

/-- Counting effects in the loop trace: any predicate that holds of no
effect the loop body can emit (in particular release and
reset_default_volume, which only cleanup emits) counts zero occurrences
in the trace of runLoop. -/
lemma runLoop_countP_zero {D : Type} (hypot : ℤ → ℤ → D)
    (script : List FrameInput) (s : AppState) (p : Eff D → Bool)
    (hDraw : p .drawHands = false)
    (hCircle : ∀ c, p (.drawCircle c) = false)
    (hLine : ∀ a b, p (.drawLine a b) = false)
    (hGet : ∀ d, p (.getScaledDb d) = false)
    (hSet : ∀ d, p (.setVolume d) = false)
    (hRep : ∀ m, p (.reportError m) = false)
    (hFPS : ∀ n, p (.showFPS n) = false)
    (hVol : ∀ q, p (.showVolume q) = false)
    (hShow : p .imshow = false) :
    (runLoop hypot script s).1.countP p = 0 := by
  induction script generalizing s with
  | nil => simp [runLoop]
  | cons f rest ih =>
    simp only [runLoop]
    by_cases hi : f.interrupt <;> simp only [hi, if_true, if_false]
    · simp
    · rcases hp : processFrame hypot f.lms s with ⟨pt, pr⟩
      have hpt : pt.countP p = 0 := by
        have := processFrame_countP_zero hypot f.lms s p hDraw hCircle hLine hGet hSet
        rw [hp] at this
        exact this
      have hread : ∀ b : Bool,
          ((if b then ([] : List (Eff D))
            else utilsError "Unable to process image").countP p) = 0 := by
        intro b
        cases b <;> simp [utilsError, List.countP_cons, hRep]
      cases pr with
      | error e =>
        simp [hp, List.countP_append, hpt, hread]
      | ok s1 =>
        cases hc : computeFPS f.time s1.previous_time with
        | error e =>
          simp [hp, hc, List.countP_append, hpt, hread]
        | ok fps =>
          by_cases hq : f.quitKey <;>
            simp [hp, hc, hq, List.countP_append, List.countP_cons, hpt,
              hread, hFPS, hVol, hShow, ih]

/-- The stored reset_volume flag is dead state for the loop: running with
the flag set to any value produces the same trace and exit kind, and a
final state differing only in the flag. -/
lemma runLoop_flag {D : Type} (hypot : ℤ → ℤ → D) (script : List FrameInput)
    (b : Bool) : ∀ s : AppState,
    runLoop hypot script { s with reset_volume := b } =
      ((runLoop hypot script s).1,
        { (runLoop hypot script s).2.1 with reset_volume := b },
        (runLoop hypot script s).2.2) := by
  induction script with
  | nil => intro s; simp [runLoop]
  | cons f rest ih =>
    intro s
    obtain ⟨sb, sdb, spt⟩ := s
    cases hi : f.interrupt with
    | true => simp [runLoop, hi]
    | false =>
      rcases hp : processFrame hypot f.lms (AppState.mk sb sdb spt) with ⟨pt, pr⟩
      have hp2 : processFrame hypot f.lms (AppState.mk b sdb spt) =
          (pt, pr.map fun _ => AppState.mk b sdb spt) := by
        rw [processFrame_state hypot f.lms (AppState.mk sb sdb spt)
          (AppState.mk b sdb spt), hp]
      cases pr with
      | error e => simp [runLoop, hi, hp, hp2, Except.map]
      | ok s1 =>
        have hs1 : s1 = AppState.mk sb sdb spt := processFrame_ok_eq (by rw [hp])
        subst hs1
        cases hc : computeFPS f.time spt with
        | error e => simp [runLoop, hi, hp, hp2, Except.map, hc]
        | ok fps =>
          cases hq : f.quitKey <;>
            simp [runLoop, hi, hp, hp2, Except.map, hc, hq,
              ih (AppState.mk sb sdb f.time)]

/-! ### Claim theorems: per-frame pipeline -/

/-- C2: for every frame in which get_positions returns an empty landmark
result, process_frame performs no volume mutation (set_volume is not
called that frame) and the state is returned unchanged, so self.db, the
volume value display_info shows, keeps its value from before the frame. -/
theorem C2_empty_hand {D : Type} (hypot : ℤ → ℤ → D) (lms : List Landmark)
    (s : AppState) (h : lms = []) :
    (processFrame hypot lms s).1.countP isSetVolume = 0 ∧
    (processFrame hypot lms s).2 = Except.ok s := by
  subst h
  constructor
  · simp [processFrame, List.countP_cons, isSetVolume]
  · simp [processFrame]

/-- Witness for C2 at a concrete empty frame. -/
theorem C2_empty_hand_witness :
    ([] : List Landmark) = [] ∧
    ((processFrame hypotQ ([] : List Landmark)
        (AppState.mk false 0 5)).1.countP isSetVolume = 0 ∧
      (processFrame hypotQ ([] : List Landmark) (AppState.mk false 0 5)).2 =
        Except.ok (AppState.mk false 0 5)) :=
  ⟨rfl, C2_empty_hand hypotQ [] (AppState.mk false 0 5) rfl⟩

/-- A frame whose thumb tip sits at the origin and whose index fingertip
sits at (120, 160), so the fingertips are 200 pixels apart. -/
def lmsC4 : List Landmark :=
  [(0, 300, 300), (1, 300, 300), (2, 300, 300), (3, 300, 300), (4, 0, 0),
   (5, 300, 300), (6, 300, 300), (7, 300, 300), (8, 120, 160)]

/-- The application state right after startup with a baseline of 0 dB. -/
def sC4 : AppState := AppState.mk false 0 0

/-- C4: evaluation at the failing input.  On a frame whose fingertip
distance is 200, the level computed from the distance is 100, but
process_frame binds get_scaled_db(length) to a local variable and never
stores it: the returned state still carries db = 0 from startup, and that
stale value is what display_info shows, not the 100 the claim requires. -/
theorem C4_level_not_remembered :
    processFrame hypotQ lmsC4 sC4 =
      ([Eff.drawHands, Eff.drawCircle (0, 0), Eff.drawCircle (120, 160),
        Eff.drawLine (0, 0) (120, 160), Eff.getScaledDb 200,
        Eff.setVolume 200], Except.ok sC4) ∧
    get_scaled_db 200 = 100 ∧ sC4.db = 0 ∧ (100 : ℚ) ≠ 0 := by
  refine ⟨?_, ?_, rfl, by norm_num⟩
  · norm_num [processFrame, lmsC4, sC4, hypotQ]
  · norm_num [get_scaled_db, map_to_level]

/-- C9: for every frame with a hand present, the DistanceSample handed to
the volume operations (the argument of get_scaled_db and of set_volume)
equals the Euclidean pixel distance between landmark index 4 (thumb tip)
and landmark index 8 (index fingertip). -/
theorem C9_distance_sample (lms : List Landmark) (s : AppState)
    (i₁ x₁ y₁ i₂ x₂ y₂ : ℤ)
    (h4 : lms.get? 4 = some (i₁, x₁, y₁))
    (h8 : lms.get? 8 = some (i₂, x₂, y₂)) :
    volumeOpArgs (processFrame hypotR lms s).1 =
      [Real.sqrt (((x₂ - x₁ : ℤ) : ℝ) ^ 2 + ((y₂ - y₁ : ℤ) : ℝ) ^ 2),
       Real.sqrt (((x₂ - x₁ : ℤ) : ℝ) ^ 2 + ((y₂ - y₁ : ℤ) : ℝ) ^ 2)] := by
  cases lms with
  | nil => simp at h4
  | cons a l =>
    simp only [List.get?] at h4 h8
    simp at h4 h8
    simp [processFrame, h4, h8, volumeOpArgs, hypotR, List.filterMap]

/-- A frame whose thumb tip sits at the origin and whose index fingertip
sits at (3, 4). -/
def lmsC9 : List Landmark :=
  [(0, 50, 50), (1, 50, 50), (2, 50, 50), (3, 50, 50), (4, 0, 0),
   (5, 50, 50), (6, 50, 50), (7, 50, 50), (8, 3, 4)]

/-- An application state for the C9 witness. -/
def sC9 : AppState := AppState.mk false 0 0

/-- Witness for C9 at a concrete frame with fingertips 5 pixels apart. -/
theorem C9_distance_sample_witness :
    lmsC9.get? 4 = some (4, 0, 0) ∧ lmsC9.get? 8 = some (8, 3, 4) ∧
    volumeOpArgs (processFrame hypotR lmsC9 sC9).1 =
      [Real.sqrt (((3 - 0 : ℤ) : ℝ) ^ 2 + ((4 - 0 : ℤ) : ℝ) ^ 2),
       Real.sqrt (((3 - 0 : ℤ) : ℝ) ^ 2 + ((4 - 0 : ℤ) : ℝ) ^ 2)] :=
  ⟨rfl, rfl, C9_distance_sample lmsC9 sC9 4 0 0 8 3 4 rfl rfl⟩

/-! ### Claim theorems: startup and the distance-to-level mapping -/

/-- C7: if the camera fails to open at startup, __init__ exits the process
with status 1 (nonzero) before the VolumeChanger is constructed, so no
audio-endpoint call has been made. -/
theorem C7_camera_fail (flag : Bool) (env : InitEnv)
    (h : env.camOpened = false) :
    appInit flag env = ([], Except.error 1) ∧ (1 : ℤ) ≠ 0 := by
  refine ⟨?_, by norm_num⟩
  simp [appInit, h]

/-- An environment whose camera does not open. -/
def envC7 : InitEnv :=
  { camOpened := false, detectorOk := true, volumeOk := true,
    initial_db := 0, t0 := 0 }

/-- Witness for C7 at a concrete environment. -/
theorem C7_camera_fail_witness :
    envC7.camOpened = false ∧
    (appInit true envC7 = ([], Except.error 1) ∧ (1 : ℤ) ≠ 0) :=
  ⟨rfl, C7_camera_fail true envC7 rfl⟩

/-- C8: the distance-to-level mapping is clamped linear interpolation:
distances at or below the lower bound map to the low level, distances at
or above the upper bound map to the high level, the mapping is monotone
non-decreasing strictly between the bounds, and with bounds (20, 200)
onto (0, 100) the distances 20, 200, 110, 5 and 500 map to 0, 100, 50, 0
and 100. -/
theorem C8_map_to_level_clamped (dlo dhi llo lhi d d₁ d₂ : ℚ)
    (hd : dlo < dhi) (hl : llo ≤ lhi) (h₁ : dlo < d₁) (h₁₂ : d₁ ≤ d₂)
    (h₂ : d₂ < dhi) :
    (d ≤ dlo → map_to_level dlo dhi llo lhi d = llo) ∧
    (dhi ≤ d → map_to_level dlo dhi llo lhi d = lhi) ∧
    map_to_level dlo dhi llo lhi d₁ ≤ map_to_level dlo dhi llo lhi d₂ ∧
    map_to_level 20 200 0 100 20 = 0 ∧
    map_to_level 20 200 0 100 200 = 100 ∧
    map_to_level 20 200 0 100 110 = 50 ∧
    map_to_level 20 200 0 100 5 = 0 ∧
    map_to_level 20 200 0 100 500 = 100 := by
  refine ⟨fun hle => by simp [map_to_level, hle], fun hge => ?_, ?_,
    by norm_num [map_to_level], by norm_num [map_to_level],
    by norm_num [map_to_level], by norm_num [map_to_level],
    by norm_num [map_to_level]⟩
  · have hnd : ¬ d ≤ dlo := by linarith
    simp [map_to_level, hnd, hge]
  · have hn1 : ¬ d₁ ≤ dlo := not_le.mpr h₁
    have hn2 : ¬ d₂ ≤ dlo := not_le.mpr (lt_of_lt_of_le h₁ h₁₂)
    have hh1 : ¬ dhi ≤ d₁ := not_le.mpr (lt_of_le_of_lt h₁₂ h₂)
    have hh2 : ¬ dhi ≤ d₂ := not_le.mpr h₂
    simp only [map_to_level, if_neg hn1, if_neg hn2, if_neg hh1, if_neg hh2]
    have hden : (0 : ℚ) < dhi - dlo := by linarith
    have hnum : (0 : ℚ) ≤ lhi - llo := by linarith
    apply add_le_add_left
    apply (div_le_div_iff_of_pos_right hden).mpr
    exact mul_le_mul_of_nonneg_right (by linarith) hnum

/-- Witness for C8 at the scenario bounds of the spec, with the probe
distance 10 and the interior pair 50 and 60. -/
theorem C8_map_to_level_clamped_witness :
    ((20 : ℚ) < 200 ∧ (0 : ℚ) ≤ 100 ∧ (20 : ℚ) < 50 ∧ (50 : ℚ) ≤ 60 ∧
      (60 : ℚ) < 200) ∧
    (((10 : ℚ) ≤ 20 → map_to_level 20 200 0 100 10 = 0) ∧
      ((200 : ℚ) ≤ 10 → map_to_level 20 200 0 100 10 = 100) ∧
      map_to_level 20 200 0 100 50 ≤ map_to_level 20 200 0 100 60 ∧
      map_to_level 20 200 0 100 20 = 0 ∧
      map_to_level 20 200 0 100 200 = 100 ∧
      map_to_level 20 200 0 100 110 = 50 ∧
      map_to_level 20 200 0 100 5 = 0 ∧
      map_to_level 20 200 0 100 500 = 100) :=
  ⟨⟨by norm_num, by norm_num, by norm_num, by norm_num, by norm_num⟩,
    C8_map_to_level_clamped 20 200 0 100 10 50 60 (by norm_num) (by norm_num)
      (by norm_num) (by norm_num) (by norm_num)⟩

/-! ### Claim theorems: the run loop, shutdown and the entry point -/

/-- A frame whose timestamp equals the stored previous timestamp, so the
elapsed time is zero. -/
def fC1 : FrameInput :=
  { interrupt := false, success := true, lms := [], time := 5,
    quitKey := false }

/-- The state entering the C1 iteration, with previous_time = 5. -/
def sC1 : AppState := AppState.mk false 0 5

/-- C1: evaluation at the failing input.  With two equal consecutive
timestamps the FPS expression divides by zero: the loop body raises
ZeroDivisionError and run ends with that error (after cleanup), instead
of retaining the previous FPS or showing a sentinel as the claim
states. -/
theorem C1_fps_division_by_zero :
    fC1.time = sC1.previous_time ∧
    (run hypotQ [fC1] sC1).2.2 = Outcome.raised PyErr.zeroDivisionError := by
  refine ⟨rfl, ?_⟩
  norm_num [run, runLoop, processFrame, computeFPS, fC1, sC1]

/-- C3: on every exit from the Running loop by the quit key or by
KeyboardInterrupt, the cleanup sequence runs and, over the whole run
trace, the capture device is released exactly once and
reset_default_volume is called exactly once. -/
theorem C3_cleanup_once {D : Type} (hypot : ℤ → ℤ → D)
    (script : List FrameInput) (s : AppState)
    (h : (runLoop hypot script s).2.2 = ExitKind.quitKey ∨
      (runLoop hypot script s).2.2 = ExitKind.interrupted) :
    (run hypot script s).1.countP isRelease = 1 ∧
    (run hypot script s).1.countP isReset = 1 := by
  have hrel : (runLoop hypot script s).1.countP isRelease = 0 :=
    runLoop_countP_zero hypot script s isRelease rfl (fun _ => rfl)
      (fun _ _ => rfl) (fun _ => rfl) (fun _ => rfl) (fun _ => rfl)
      (fun _ => rfl) (fun _ => rfl) rfl
  have hres : (runLoop hypot script s).1.countP isReset = 0 :=
    runLoop_countP_zero hypot script s isReset rfl (fun _ => rfl)
      (fun _ _ => rfl) (fun _ => rfl) (fun _ => rfl) (fun _ => rfl)
      (fun _ => rfl) (fun _ => rfl) rfl
  rcases h with h | h <;>
    simp [run, h, List.countP_append, List.countP_cons, hrel, hres,
      cleanupEffs, isRelease, isReset]

/-- A frame that presses the quit key. -/
def fC3 : FrameInput :=
  { interrupt := false, success := true, lms := [], time := 6,
    quitKey := true }

/-- The state entering the C3 run. -/
def sC3 : AppState := AppState.mk false 0 5

/-- Witness for C3 at a concrete run ended by the quit key. -/
theorem C3_cleanup_once_witness :
    ((runLoop hypotQ [fC3] sC3).2.2 = ExitKind.quitKey ∨
      (runLoop hypotQ [fC3] sC3).2.2 = ExitKind.interrupted) ∧
    ((run hypotQ [fC3] sC3).1.countP isRelease = 1 ∧
      (run hypotQ [fC3] sC3).1.countP isReset = 1) :=
  ⟨Or.inl (by norm_num [runLoop, processFrame, computeFPS, pyInt, fC3, sC3]),
    C3_cleanup_once hypotQ [fC3] sC3
      (Or.inl (by norm_num [runLoop, processFrame, computeFPS, pyInt, fC3, sC3]))⟩

/-- C5: two runs differing only in the reset_volume flag have identical
shutdown behaviour: the traces and outcomes coincide, and whenever the
loop actually exits (on any path) reset_default_volume is called exactly
once, unconditionally, so the flag has no observable effect on whether
the restore happens. -/
theorem C5_flag_inert {D : Type} (hypot : ℤ → ℤ → D)
    (script : List FrameInput) (s : AppState) (b₁ b₂ : Bool) :
    (run hypot script { s with reset_volume := b₁ }).1 =
      (run hypot script { s with reset_volume := b₂ }).1 ∧
    (run hypot script { s with reset_volume := b₁ }).2.2 =
      (run hypot script { s with reset_volume := b₂ }).2.2 ∧
    (run hypot script { s with reset_volume := b₁ }).1.countP isReset =
      (if (runLoop hypot script { s with reset_volume := b₁ }).2.2 =
          ExitKind.scriptEnd then 0 else 1) := by
  have h₁ := runLoop_flag hypot script b₁ s
  have h₂ := runLoop_flag hypot script b₂ s
  have hz : (runLoop hypot script s).1.countP isReset = 0 :=
    runLoop_countP_zero hypot script s isReset rfl (fun _ => rfl)
      (fun _ _ => rfl) (fun _ => rfl) (fun _ => rfl) (fun _ => rfl)
      (fun _ => rfl) (fun _ => rfl) rfl
  cases hk : (runLoop hypot script s).2.2 with
  | quitKey =>
    simp [run, h₁, h₂, hk, List.countP_append, List.countP_cons,
      cleanupEffs, isReset, hz]
  | interrupted =>
    simp [run, h₁, h₂, hk, List.countP_append, List.countP_cons,
      cleanupEffs, isReset, hz]
  | raised e =>
    simp [run, h₁, h₂, hk, List.countP_append, List.countP_cons,
      cleanupEffs, isReset, hz]
  | scriptEnd =>
    simp [run, h₁, h₂, hk, hz]

/-- A quit-key frame for the C5 witness. -/
def fC5 : FrameInput :=
  { interrupt := false, success := true, lms := [], time := 6,
    quitKey := true }

/-- A state with a nonzero volume level for the C5 witness. -/
def sC5 : AppState := AppState.mk true 3 5

/-- Witness for C5 comparing two concrete runs, flag set versus unset. -/
theorem C5_flag_inert_witness :
    (run hypotQ [fC5] { sC5 with reset_volume := true }).1 =
      (run hypotQ [fC5] { sC5 with reset_volume := false }).1 ∧
    (run hypotQ [fC5] { sC5 with reset_volume := true }).2.2 =
      (run hypotQ [fC5] { sC5 with reset_volume := false }).2.2 ∧
    (run hypotQ [fC5] { sC5 with reset_volume := true }).1.countP isReset =
      (if (runLoop hypotQ [fC5] { sC5 with reset_volume := true }).2.2 =
          ExitKind.scriptEnd then 0 else 1) :=
  C5_flag_inert hypotQ [fC5] sC5 true false

/-- A hand whose thumb tip is at the origin and whose index fingertip is
at (3, 4), visible on the frame whose read failed. -/
def lmsC6 : List Landmark :=
  [(0, 9, 9), (1, 9, 9), (2, 9, 9), (3, 9, 9), (4, 0, 0),
   (5, 9, 9), (6, 9, 9), (7, 9, 9), (8, 3, 4)]

/-- A frame whose read fails while a hand is detected. -/
def fC6 : FrameInput :=
  { interrupt := false, success := false, lms := lmsC6, time := 1,
    quitKey := true }

/-- The state entering the C6 iteration. -/
def sC6 : AppState := AppState.mk false 0 0

/-- C6: counterexample.  On a frame whose read fails, the failure is
reported, but the claim that no program state is mutated during that
frame is false: the same iteration still processes the frame (set_volume
is called once, since the source has no continue statement after the
report) and previous_time is overwritten from 0 to 1. -/
theorem C6_failed_read_mutates :
    fC6.success = false ∧
    (runLoop hypotQ [fC6] sC6).1.countP isReport = 1 ∧
    (runLoop hypotQ [fC6] sC6).1.countP isSetVolume = 1 ∧
    (runLoop hypotQ [fC6] sC6).2.1.previous_time = 1 ∧
    sC6.previous_time = 0 := by
  refine ⟨rfl, ?_, ?_, ?_, rfl⟩ <;>
    norm_num [runLoop, processFrame, computeFPS, pyInt, utilsError, fC6,
      sC6, lmsC6, hypotQ, List.countP_cons, isReport, isSetVolume]

/-- C6 amended: a failed read is reported and the loop does not
terminate, but the iteration is not skipped: apart from the prepended
error report the iteration behaves exactly as if the read had succeeded,
processing the frame and mutating state the same way. -/
theorem C6_failed_read_report_then_process {D : Type} (hypot : ℤ → ℤ → D)
    (f : FrameInput) (rest : List FrameInput) (s : AppState)
    (h : f.interrupt = false) :
    runLoop hypot ({ f with success := false } :: rest) s =
      (Eff.reportError "Unable to process image" ::
        (runLoop hypot ({ f with success := true } :: rest) s).1,
       (runLoop hypot ({ f with success := true } :: rest) s).2) := by
  obtain ⟨fi, fs, fl, ft, fq⟩ := f
  simp only [FrameInput.interrupt] at h
  subst h
  rcases hp : processFrame hypot fl s with ⟨pt, pr⟩
  cases pr with
  | error e => simp [runLoop, utilsError, hp]
  | ok s1 =>
    cases hc : computeFPS ft s1.previous_time with
    | error e => simp [runLoop, utilsError, hp, hc]
    | ok fps =>
      cases fq <;> simp [runLoop, utilsError, hp, hc]

/-- A quit-key frame for the C6 amended witness. -/
def fC6w : FrameInput :=
  { interrupt := false, success := true, lms := [], time := 1,
    quitKey := true }

/-- The state entering the C6 amended witness run. -/
def sC6w : AppState := AppState.mk false 0 0

/-- Witness for the amended C6 at a concrete frame. -/
theorem C6_failed_read_report_then_process_witness :
    fC6w.interrupt = false ∧
    runLoop hypotQ ({ fC6w with success := false } :: []) sC6w =
      (Eff.reportError "Unable to process image" ::
        (runLoop hypotQ ({ fC6w with success := true } :: []) sC6w).1,
       (runLoop hypotQ ({ fC6w with success := true } :: []) sC6w).2) :=
  ⟨rfl, C6_failed_read_report_then_process hypotQ fC6w [] sC6w rfl⟩

/-- C10: any Python exception (PyErr) escaping run after successful
construction is caught by the except Exception handler of the entry
point: the message is printed and the process terminates with exit
status 0, the same status as a normal quit, so a runtime failure is not
distinguishable from a normal quit by exit code. -/
theorem C10_runtime_error_exits_zero {D : Type} (hypot : ℤ → ℤ → D)
    (flag : Bool) (env : InitEnv) (script : List FrameInput) (s : AppState)
    (e : PyErr) (hinit : (appInit flag env).2 = Except.ok s)
    (hrun : (run hypot script s).2.2 = Outcome.raised e) :
    programRun hypot flag env script = (0, true) := by
  simp [programRun, hinit, hrun]

/-- An environment in which every component constructs. -/
def envC10 : InitEnv :=
  { camOpened := true, detectorOk := true, volumeOk := true,
    initial_db := 0, t0 := 5 }

/-- The state __init__ builds in envC10. -/
def sC10 : AppState := AppState.mk false 0 5

/-- A zero-elapsed-time frame that raises ZeroDivisionError mid-run. -/
def fC10 : FrameInput :=
  { interrupt := false, success := true, lms := [], time := 5,
    quitKey := false }

/-- Witness for C10: a concrete run that raises ZeroDivisionError still
terminates with exit status 0 (with the error message printed). -/
theorem C10_runtime_error_exits_zero_witness :
    (appInit false envC10).2 = Except.ok sC10 ∧
    (run hypotQ [fC10] sC10).2.2 = Outcome.raised PyErr.zeroDivisionError ∧
    programRun hypotQ false envC10 [fC10] = (0, true) :=
  ⟨rfl, by norm_num [run, runLoop, processFrame, computeFPS, fC10, sC10],
    C10_runtime_error_exits_zero hypotQ false envC10 [fC10] sC10
      PyErr.zeroDivisionError rfl
      (by norm_num [run, runLoop, processFrame, computeFPS, fC10, sC10])⟩

end VolumeHandController
